import Mathlib

/-!
Shallow embedding of the spaceship navigation system
(`spaceShip/space_ship.py`).  Python floats are modelled as real
numbers, mutating methods as functions from the state to a result
paired with the new state, and the mutable entity as a structure.
-/

set_option maxHeartbeats 1000000

namespace SpaceShip

inductive NavigationMode where
  | MANUAL
  | AUTOPILOT
  | EMERGENCY
deriving DecidableEq, Repr

/-- The mutable state of `SpaceshipNavigation`: one field per Python
instance attribute. -/
structure SpaceshipNavigation where
  x : ℝ
  y : ℝ
  z : ℝ
  velocity_x : ℝ
  velocity_y : ℝ
  velocity_z : ℝ
  fuel_level : ℝ
  max_fuel : ℝ
  fuel_consumption_rate : ℝ
  max_speed : ℝ
  navigation_mode : NavigationMode
  is_engine_active : Bool
  navigation_locked : Bool
  waypoints : List (ℝ × ℝ × ℝ)
  current_waypoint_index : ℕ
  position_history : List (ℝ × ℝ × ℝ)
  max_history_size : ℕ

namespace SpaceshipNavigation

/-- `__init__`: fresh entity at the given coordinates. -/
noncomputable def init (initial_x initial_y initial_z : ℝ) : SpaceshipNavigation where
  x := initial_x
  y := initial_y
  z := initial_z
  velocity_x := 0
  velocity_y := 0
  velocity_z := 0
  fuel_level := 1000
  max_fuel := 1000
  fuel_consumption_rate := 1
  max_speed := 100
  navigation_mode := NavigationMode.MANUAL
  is_engine_active := false
  navigation_locked := false
  waypoints := []
  current_waypoint_index := 0
  position_history := [(initial_x, initial_y, initial_z)]
  max_history_size := 100

/-- `get_position`. -/
def get_position (s : SpaceshipNavigation) : ℝ × ℝ × ℝ := (s.x, s.y, s.z)

/-- `get_velocity`. -/
def get_velocity (s : SpaceshipNavigation) : ℝ × ℝ × ℝ :=
  (s.velocity_x, s.velocity_y, s.velocity_z)

/-- `_add_to_history`: append the current position, evicting the oldest
entry when the size limit is exceeded. -/
def _add_to_history (s : SpaceshipNavigation) : SpaceshipNavigation :=
  let h := s.position_history ++ [(s.x, s.y, s.z)]
  { s with position_history := if h.length > s.max_history_size then h.tail else h }

/-- `set_position`. -/
def set_position (s : SpaceshipNavigation) (x y z : ℝ) :
    Bool × SpaceshipNavigation :=
  if s.navigation_locked then (false, s)
  else (true, _add_to_history { s with x := x, y := y, z := z })

/-- `move`. -/
noncomputable def move (s : SpaceshipNavigation) (dx dy dz : ℝ) :
    Bool × SpaceshipNavigation :=
  if s.navigation_locked then (false, s)
  else
    let distance := Real.sqrt (dx * dx + dy * dy + dz * dz)
    if distance = 0 then (true, s)
    else
      let fuel_needed := distance * s.fuel_consumption_rate
      if fuel_needed > s.fuel_level then (false, s)
      else
        (true, _add_to_history
          { s with
            x := s.x + dx
            y := s.y + dy
            z := s.z + dz
            fuel_level := s.fuel_level - fuel_needed })

/-- `set_velocity`. -/
noncomputable def set_velocity (s : SpaceshipNavigation) (vx vy vz : ℝ) :
    Bool × SpaceshipNavigation :=
  if s.navigation_locked then (false, s)
  else if |vx| > s.max_speed ∨ |vy| > s.max_speed ∨ |vz| > s.max_speed then (false, s)
  else (true, { s with velocity_x := vx, velocity_y := vy, velocity_z := vz })

/-- `accelerate`. -/
noncomputable def accelerate (s : SpaceshipNavigation) (ax ay az time_delta : ℝ) :
    Bool × SpaceshipNavigation :=
  if s.navigation_locked ∨ time_delta ≤ 0 then (false, s)
  else
    let new_vx := s.velocity_x + ax * time_delta
    let new_vy := s.velocity_y + ay * time_delta
    let new_vz := s.velocity_z + az * time_delta
    if |new_vx| > s.max_speed ∨ |new_vy| > s.max_speed ∨ |new_vz| > s.max_speed then
      (false, s)
    else
      let acceleration_magnitude := Real.sqrt (ax * ax + ay * ay + az * az)
      let fuel_needed := acceleration_magnitude * time_delta * 2
      if fuel_needed > s.fuel_level then (false, s)
      else
        (true, { s with
          velocity_x := new_vx
          velocity_y := new_vy
          velocity_z := new_vz
          fuel_level := s.fuel_level - fuel_needed })

/-- `navigate_time_step`. -/
noncomputable def navigate_time_step (s : SpaceshipNavigation) (time_delta : ℝ) :
    Bool × SpaceshipNavigation :=
  if s.navigation_locked ∨ time_delta ≤ 0 then (false, s)
  else
    move s (s.velocity_x * time_delta) (s.velocity_y * time_delta)
      (s.velocity_z * time_delta)

/-- `calculate_distance_to`. -/
noncomputable def calculate_distance_to (s : SpaceshipNavigation)
    (target_x target_y target_z : ℝ) : ℝ :=
  let dx := target_x - s.x
  let dy := target_y - s.y
  let dz := target_z - s.z
  Real.sqrt (dx * dx + dy * dy + dz * dz)

/-- `navigate_to_target`. -/
noncomputable def navigate_to_target (s : SpaceshipNavigation)
    (target_x target_y target_z : ℝ) (ms : Option ℝ) :
    Bool × SpaceshipNavigation :=
  if s.navigation_locked then (false, s)
  else
    let distance := calculate_distance_to s target_x target_y target_z
    if distance = 0 then set_velocity s 0 0 0
    else
      let speed := min (ms.getD s.max_speed) s.max_speed
      let dx := target_x - s.x
      let dy := target_y - s.y
      let dz := target_z - s.z
      set_velocity s (dx / distance * speed) (dy / distance * speed)
        (dz / distance * speed)

/-- `add_waypoint`. -/
def add_waypoint (s : SpaceshipNavigation) (x y z : ℝ) :
    Bool × SpaceshipNavigation :=
  if s.navigation_locked then (false, s)
  else (true, { s with waypoints := s.waypoints ++ [(x, y, z)] })

/-- `clear_waypoints`. -/
def clear_waypoints (s : SpaceshipNavigation) : Bool × SpaceshipNavigation :=
  if s.navigation_locked then (false, s)
  else (true, { s with waypoints := [], current_waypoint_index := 0 })

/-- `get_next_waypoint`. -/
def get_next_waypoint (s : SpaceshipNavigation) : Option (ℝ × ℝ × ℝ) :=
  if s.current_waypoint_index ≥ s.waypoints.length then none
  else s.waypoints.get? s.current_waypoint_index

/-- `advance_to_next_waypoint`. -/
def advance_to_next_waypoint (s : SpaceshipNavigation) :
    Bool × SpaceshipNavigation :=
  if s.navigation_locked then (false, s)
  else if s.current_waypoint_index ≥ s.waypoints.length then (false, s)
  else (true, { s with current_waypoint_index := s.current_waypoint_index + 1 })

/-- `navigate_waypoint_route`. -/
noncomputable def navigate_waypoint_route (s : SpaceshipNavigation)
    (waypoint_threshold : ℝ) : Bool × SpaceshipNavigation :=
  match get_next_waypoint s with
  | none => (false, s)
  | some (target_x, target_y, target_z) =>
    let distance := calculate_distance_to s target_x target_y target_z
    if distance ≤ waypoint_threshold then advance_to_next_waypoint s
    else navigate_to_target s target_x target_y target_z none

/-- `refuel`: returns the amount of fuel actually added. -/
noncomputable def refuel (s : SpaceshipNavigation) (fuel_amount : ℝ) :
    ℝ × SpaceshipNavigation :=
  if fuel_amount ≤ 0 then (0, s)
  else
    let available_capacity := s.max_fuel - s.fuel_level
    let actual_fuel_added := min fuel_amount available_capacity
    (actual_fuel_added, { s with fuel_level := s.fuel_level + actual_fuel_added })

/-- `get_fuel_percentage`. -/
noncomputable def get_fuel_percentage (s : SpaceshipNavigation) : ℝ :=
  s.fuel_level / s.max_fuel * 100

/-- `estimate_fuel_for_distance`. -/
noncomputable def estimate_fuel_for_distance (s : SpaceshipNavigation)
    (distance : ℝ) : ℝ :=
  distance * s.fuel_consumption_rate

/-- `can_reach_target`. -/
noncomputable def can_reach_target (s : SpaceshipNavigation)
    (target_x target_y target_z : ℝ) : Bool :=
  decide (estimate_fuel_for_distance s
    (calculate_distance_to s target_x target_y target_z) ≤ s.fuel_level)

/-- The dictionary returned by `get_navigation_status`, one field per key. -/
structure NavigationStatus where
  position : ℝ × ℝ × ℝ
  velocity : ℝ × ℝ × ℝ
  fuel_level : ℝ
  fuel_percentage : ℝ
  navigation_mode : NavigationMode
  navigation_locked : Bool
  is_engine_active : Bool
  waypoints_remaining : ℤ
  total_distance_traveled : ℕ

/-- `set_navigation_mode`. -/
def set_navigation_mode (s : SpaceshipNavigation) (mode : NavigationMode) :
    Bool × SpaceshipNavigation :=
  if s.navigation_locked ∧ mode ≠ NavigationMode.EMERGENCY then (false, s)
  else (true, { s with navigation_mode := mode })

/-- `lock_navigation`. -/
def lock_navigation (s : SpaceshipNavigation) (locked : Bool) :
    Bool × SpaceshipNavigation :=
  if locked ∧ s.navigation_mode ≠ NavigationMode.MANUAL then (false, s)
  else (true, { s with navigation_locked := locked })

/-- `emergency_stop`. -/
def emergency_stop (s : SpaceshipNavigation) : Bool × SpaceshipNavigation :=
  (true, { s with
    velocity_x := 0
    velocity_y := 0
    velocity_z := 0
    navigation_mode := NavigationMode.EMERGENCY
    navigation_locked := false })

/-- `get_navigation_status`. -/
noncomputable def get_navigation_status (s : SpaceshipNavigation) :
    NavigationStatus where
  position := s.get_position
  velocity := s.get_velocity
  fuel_level := s.fuel_level
  fuel_percentage := s.get_fuel_percentage
  navigation_mode := s.navigation_mode
  navigation_locked := s.navigation_locked
  is_engine_active := s.is_engine_active
  waypoints_remaining := (s.waypoints.length : ℤ) - s.current_waypoint_index
  total_distance_traveled := s.position_history.length

end SpaceshipNavigation

open SpaceshipNavigation

/-- One public operation call, with its arguments. -/
inductive Op where
  | set_position (x y z : ℝ)
  | move (dx dy dz : ℝ)
  | set_velocity (vx vy vz : ℝ)
  | accelerate (ax ay az time_delta : ℝ)
  | navigate_time_step (time_delta : ℝ)
  | navigate_to_target (tx ty tz : ℝ) (ms : Option ℝ)
  | add_waypoint (x y z : ℝ)
  | clear_waypoints
  | advance_to_next_waypoint
  | navigate_waypoint_route (waypoint_threshold : ℝ)
  | refuel (fuel_amount : ℝ)
  | set_navigation_mode (mode : NavigationMode)
  | lock_navigation (locked : Bool)
  | emergency_stop

/-- Apply one operation, keeping the resulting state and discarding the
returned value. -/
noncomputable def step (s : SpaceshipNavigation) : Op → SpaceshipNavigation
  | Op.set_position x y z => (s.set_position x y z).2
  | Op.move dx dy dz => (s.move dx dy dz).2
  | Op.set_velocity vx vy vz => (s.set_velocity vx vy vz).2
  | Op.accelerate ax ay az dt => (s.accelerate ax ay az dt).2
  | Op.navigate_time_step dt => (s.navigate_time_step dt).2
  | Op.navigate_to_target tx ty tz ms => (s.navigate_to_target tx ty tz ms).2
  | Op.add_waypoint x y z => (s.add_waypoint x y z).2
  | Op.clear_waypoints => s.clear_waypoints.2
  | Op.advance_to_next_waypoint => s.advance_to_next_waypoint.2
  | Op.navigate_waypoint_route t => (s.navigate_waypoint_route t).2
  | Op.refuel a => (s.refuel a).2
  | Op.set_navigation_mode m => (s.set_navigation_mode m).2
  | Op.lock_navigation b => (s.lock_navigation b).2
  | Op.emergency_stop => s.emergency_stop.2

/-- Apply a sequence of operations from left to right. -/
noncomputable def run (s : SpaceshipNavigation) (ops : List Op) :
    SpaceshipNavigation :=
  ops.foldl step s

/-- The state invariant maintained by every operation: fuel stays within
the tank bounds, every velocity axis respects the speed limit, the
constant rate and limit fields are nonnegative, the waypoint cursor never
passes the end of the route, and the engine flag stays off. -/
def Inv (s : SpaceshipNavigation) : Prop :=
  0 ≤ s.fuel_level ∧ s.fuel_level ≤ s.max_fuel ∧
  0 ≤ s.fuel_consumption_rate ∧ 0 ≤ s.max_speed ∧
  |s.velocity_x| ≤ s.max_speed ∧ |s.velocity_y| ≤ s.max_speed ∧
  |s.velocity_z| ≤ s.max_speed ∧
  s.current_waypoint_index ≤ s.waypoints.length ∧
  s.is_engine_active = false

/-- Spec-side model of `navigate_time_step`, written after the spec's
words: fail when navigation is locked or the time delta is not positive,
otherwise behave exactly as a move by `velocity * dt`. -/
noncomputable def navigate_time_step_model (s : SpaceshipNavigation) (dt : ℝ) :
    Bool × SpaceshipNavigation :=
  if s.navigation_locked ∨ dt ≤ 0 then (false, s)
  else s.move (s.velocity_x * dt) (s.velocity_y * dt) (s.velocity_z * dt)

/-- Two states agree on every field except possibly `navigation_locked`
and `navigation_mode`. -/
def EqExceptLockAndMode (s₁ s₂ : SpaceshipNavigation) : Prop :=
  s₁.x = s₂.x ∧ s₁.y = s₂.y ∧ s₁.z = s₂.z ∧
  s₁.velocity_x = s₂.velocity_x ∧ s₁.velocity_y = s₂.velocity_y ∧
  s₁.velocity_z = s₂.velocity_z ∧
  s₁.fuel_level = s₂.fuel_level ∧ s₁.max_fuel = s₂.max_fuel ∧
  s₁.fuel_consumption_rate = s₂.fuel_consumption_rate ∧
  s₁.max_speed = s₂.max_speed ∧
  s₁.is_engine_active = s₂.is_engine_active ∧
  s₁.waypoints = s₂.waypoints ∧
  s₁.current_waypoint_index = s₂.current_waypoint_index ∧
  s₁.position_history = s₂.position_history ∧
  s₁.max_history_size = s₂.max_history_size

theorem inv_init (x y z : ℝ) : Inv (init x y z) := by
  refine ⟨?_, ?_, ?_, ?_, ?_, ?_, ?_, ?_, rfl⟩ <;> norm_num [init]

/-- `Inv` ignores the history, so `_add_to_history` preserves it. -/
theorem inv_add_to_history (s : SpaceshipNavigation) (h : Inv s) :
    Inv (_add_to_history s) := h

theorem inv_set_position (s : SpaceshipNavigation) (x y z : ℝ) (h : Inv s) :
    Inv (s.set_position x y z).2 := by
  unfold SpaceshipNavigation.set_position
  split
  · exact h
  · exact h

theorem inv_move (s : SpaceshipNavigation) (dx dy dz : ℝ) (h : Inv s) :
    Inv (s.move dx dy dz).2 := by
  obtain ⟨h1, h2, h3, h4, h5, h6, h7, h8, h9⟩ := h
  unfold SpaceshipNavigation.move
  split
  · exact ⟨h1, h2, h3, h4, h5, h6, h7, h8, h9⟩
  · dsimp only
    split
    · exact ⟨h1, h2, h3, h4, h5, h6, h7, h8, h9⟩
    · split
      · exact ⟨h1, h2, h3, h4, h5, h6, h7, h8, h9⟩
      · rename_i hz hf
        push_neg at hf
        have hd : 0 ≤ Real.sqrt (dx * dx + dy * dy + dz * dz) := Real.sqrt_nonneg _
        have hfn : 0 ≤ Real.sqrt (dx * dx + dy * dy + dz * dz) * s.fuel_consumption_rate :=
          mul_nonneg hd h3
        exact inv_add_to_history _
          ⟨by dsimp only; linarith, by dsimp only; linarith, h3, h4, h5, h6, h7, h8, h9⟩

theorem inv_set_velocity (s : SpaceshipNavigation) (vx vy vz : ℝ) (h : Inv s) :
    Inv (s.set_velocity vx vy vz).2 := by
  obtain ⟨h1, h2, h3, h4, h5, h6, h7, h8, h9⟩ := h
  unfold SpaceshipNavigation.set_velocity
  split
  · exact ⟨h1, h2, h3, h4, h5, h6, h7, h8, h9⟩
  · split
    · exact ⟨h1, h2, h3, h4, h5, h6, h7, h8, h9⟩
    · rename_i hv
      push_neg at hv
      exact ⟨h1, h2, h3, h4, hv.1, hv.2.1, hv.2.2, h8, h9⟩

theorem inv_accelerate (s : SpaceshipNavigation) (ax ay az dt : ℝ) (h : Inv s) :
    Inv (s.accelerate ax ay az dt).2 := by
  obtain ⟨h1, h2, h3, h4, h5, h6, h7, h8, h9⟩ := h
  unfold SpaceshipNavigation.accelerate
  split
  · exact ⟨h1, h2, h3, h4, h5, h6, h7, h8, h9⟩
  · rename_i hg
    push_neg at hg
    dsimp only
    split
    · exact ⟨h1, h2, h3, h4, h5, h6, h7, h8, h9⟩
    · rename_i hv
      push_neg at hv
      split
      · exact ⟨h1, h2, h3, h4, h5, h6, h7, h8, h9⟩
      · rename_i hf
        push_neg at hf
        have hm : 0 ≤ Real.sqrt (ax * ax + ay * ay + az * az) * dt * 2 :=
          mul_nonneg (mul_nonneg (Real.sqrt_nonneg _) hg.2.le) (by norm_num)
        exact ⟨by dsimp only; linarith, by dsimp only; linarith,
          h3, h4, hv.1, hv.2.1, hv.2.2, h8, h9⟩

theorem inv_navigate_time_step (s : SpaceshipNavigation) (dt : ℝ) (h : Inv s) :
    Inv (s.navigate_time_step dt).2 := by
  unfold SpaceshipNavigation.navigate_time_step
  split
  · exact h
  · exact inv_move _ _ _ _ h

theorem inv_navigate_to_target (s : SpaceshipNavigation) (tx ty tz : ℝ)
    (ms : Option ℝ) (h : Inv s) : Inv (s.navigate_to_target tx ty tz ms).2 := by
  unfold SpaceshipNavigation.navigate_to_target
  split
  · exact h
  · dsimp only
    split
    · exact inv_set_velocity _ _ _ _ h
    · exact inv_set_velocity _ _ _ _ h

theorem inv_add_waypoint (s : SpaceshipNavigation) (x y z : ℝ) (h : Inv s) :
    Inv (s.add_waypoint x y z).2 := by
  obtain ⟨h1, h2, h3, h4, h5, h6, h7, h8, h9⟩ := h
  unfold SpaceshipNavigation.add_waypoint
  split
  · exact ⟨h1, h2, h3, h4, h5, h6, h7, h8, h9⟩
  · exact ⟨h1, h2, h3, h4, h5, h6, h7, by simpa using Nat.le_succ_of_le h8, h9⟩

theorem inv_clear_waypoints (s : SpaceshipNavigation) (h : Inv s) :
    Inv s.clear_waypoints.2 := by
  obtain ⟨h1, h2, h3, h4, h5, h6, h7, h8, h9⟩ := h
  unfold SpaceshipNavigation.clear_waypoints
  split
  · exact ⟨h1, h2, h3, h4, h5, h6, h7, h8, h9⟩
  · exact ⟨h1, h2, h3, h4, h5, h6, h7, by simp, h9⟩

theorem inv_advance_to_next_waypoint (s : SpaceshipNavigation) (h : Inv s) :
    Inv s.advance_to_next_waypoint.2 := by
  obtain ⟨h1, h2, h3, h4, h5, h6, h7, h8, h9⟩ := h
  unfold SpaceshipNavigation.advance_to_next_waypoint
  split
  · exact ⟨h1, h2, h3, h4, h5, h6, h7, h8, h9⟩
  · split
    · exact ⟨h1, h2, h3, h4, h5, h6, h7, h8, h9⟩
    · rename_i hlt
      push_neg at hlt
      exact ⟨h1, h2, h3, h4, h5, h6, h7, hlt, h9⟩

theorem inv_navigate_waypoint_route (s : SpaceshipNavigation) (t : ℝ) (h : Inv s) :
    Inv (s.navigate_waypoint_route t).2 := by
  unfold SpaceshipNavigation.navigate_waypoint_route
  rcases hn : get_next_waypoint s with _ | ⟨wx, wy, wz⟩
  · exact h
  · simp only
    split
    · exact inv_advance_to_next_waypoint _ h
    · exact inv_navigate_to_target _ _ _ _ _ h

theorem inv_refuel (s : SpaceshipNavigation) (a : ℝ) (h : Inv s) :
    Inv (s.refuel a).2 := by
  obtain ⟨h1, h2, h3, h4, h5, h6, h7, h8, h9⟩ := h
  unfold SpaceshipNavigation.refuel
  split
  · exact ⟨h1, h2, h3, h4, h5, h6, h7, h8, h9⟩
  · rename_i ha
    push_neg at ha
    refine ⟨?_, ?_, h3, h4, h5, h6, h7, h8, h9⟩
    · have : 0 ≤ min a (s.max_fuel - s.fuel_level) :=
        le_min (le_of_lt ha) (by linarith)
      simpa using by linarith
    · have : min a (s.max_fuel - s.fuel_level) ≤ s.max_fuel - s.fuel_level :=
        min_le_right _ _
      simpa using by linarith

theorem inv_set_navigation_mode (s : SpaceshipNavigation) (m : NavigationMode)
    (h : Inv s) : Inv (s.set_navigation_mode m).2 := by
  obtain ⟨h1, h2, h3, h4, h5, h6, h7, h8, h9⟩ := h
  unfold SpaceshipNavigation.set_navigation_mode
  split
  · exact ⟨h1, h2, h3, h4, h5, h6, h7, h8, h9⟩
  · exact ⟨h1, h2, h3, h4, h5, h6, h7, h8, h9⟩

theorem inv_lock_navigation (s : SpaceshipNavigation) (b : Bool) (h : Inv s) :
    Inv (s.lock_navigation b).2 := by
  obtain ⟨h1, h2, h3, h4, h5, h6, h7, h8, h9⟩ := h
  unfold SpaceshipNavigation.lock_navigation
  split
  · exact ⟨h1, h2, h3, h4, h5, h6, h7, h8, h9⟩
  · exact ⟨h1, h2, h3, h4, h5, h6, h7, h8, h9⟩

theorem inv_emergency_stop (s : SpaceshipNavigation) (h : Inv s) :
    Inv s.emergency_stop.2 := by
  obtain ⟨h1, h2, h3, h4, h5, h6, h7, h8, h9⟩ := h
  exact ⟨h1, h2, h3, h4, by simpa [SpaceshipNavigation.emergency_stop] using h4,
    by simpa [SpaceshipNavigation.emergency_stop] using h4,
    by simpa [SpaceshipNavigation.emergency_stop] using h4, h8, h9⟩

theorem inv_step (s : SpaceshipNavigation) (op : Op) (h : Inv s) :
    Inv (step s op) := by
  cases op with
  | set_position x y z => exact inv_set_position s x y z h
  | move dx dy dz => exact inv_move s dx dy dz h
  | set_velocity vx vy vz => exact inv_set_velocity s vx vy vz h
  | accelerate ax ay az dt => exact inv_accelerate s ax ay az dt h
  | navigate_time_step dt => exact inv_navigate_time_step s dt h
  | navigate_to_target tx ty tz ms => exact inv_navigate_to_target s tx ty tz ms h
  | add_waypoint x y z => exact inv_add_waypoint s x y z h
  | clear_waypoints => exact inv_clear_waypoints s h
  | advance_to_next_waypoint => exact inv_advance_to_next_waypoint s h
  | navigate_waypoint_route t => exact inv_navigate_waypoint_route s t h
  | refuel a => exact inv_refuel s a h
  | set_navigation_mode m => exact inv_set_navigation_mode s m h
  | lock_navigation b => exact inv_lock_navigation s b h
  | emergency_stop => exact inv_emergency_stop s h

theorem inv_run (s : SpaceshipNavigation) (ops : List Op) (h : Inv s) :
    Inv (run s ops) := by
  induction ops generalizing s with
  | nil => exact h
  | cons op ops ih => exact ih _ (inv_step s op h)

theorem set_position_snd_or (s : SpaceshipNavigation) (x y z : ℝ) :
    (s.set_position x y z).2 = s ∨ (s.set_position x y z).1 = true := by
  unfold SpaceshipNavigation.set_position
  split
  · exact Or.inl rfl
  · exact Or.inr rfl

theorem move_snd_or (s : SpaceshipNavigation) (dx dy dz : ℝ) :
    (s.move dx dy dz).2 = s ∨ (s.move dx dy dz).1 = true := by
  unfold SpaceshipNavigation.move
  split
  · exact Or.inl rfl
  · dsimp only
    split
    · exact Or.inr rfl
    · split
      · exact Or.inl rfl
      · exact Or.inr rfl

theorem set_velocity_snd_or (s : SpaceshipNavigation) (vx vy vz : ℝ) :
    (s.set_velocity vx vy vz).2 = s ∨ (s.set_velocity vx vy vz).1 = true := by
  unfold SpaceshipNavigation.set_velocity
  split
  · exact Or.inl rfl
  · split
    · exact Or.inl rfl
    · exact Or.inr rfl

theorem accelerate_snd_or (s : SpaceshipNavigation) (ax ay az dt : ℝ) :
    (s.accelerate ax ay az dt).2 = s ∨ (s.accelerate ax ay az dt).1 = true := by
  unfold SpaceshipNavigation.accelerate
  split
  · exact Or.inl rfl
  · dsimp only
    split
    · exact Or.inl rfl
    · split
      · exact Or.inl rfl
      · exact Or.inr rfl

theorem navigate_time_step_snd_or (s : SpaceshipNavigation) (dt : ℝ) :
    (s.navigate_time_step dt).2 = s ∨ (s.navigate_time_step dt).1 = true := by
  unfold SpaceshipNavigation.navigate_time_step
  split
  · exact Or.inl rfl
  · exact move_snd_or _ _ _ _

theorem navigate_to_target_snd_or (s : SpaceshipNavigation)
    (tx ty tz : ℝ) (ms : Option ℝ) :
    (s.navigate_to_target tx ty tz ms).2 = s ∨
    (s.navigate_to_target tx ty tz ms).1 = true := by
  unfold SpaceshipNavigation.navigate_to_target
  split
  · exact Or.inl rfl
  · dsimp only
    split
    · exact set_velocity_snd_or _ _ _ _
    · exact set_velocity_snd_or _ _ _ _

theorem add_waypoint_snd_or (s : SpaceshipNavigation) (x y z : ℝ) :
    (s.add_waypoint x y z).2 = s ∨ (s.add_waypoint x y z).1 = true := by
  unfold SpaceshipNavigation.add_waypoint
  split
  · exact Or.inl rfl
  · exact Or.inr rfl

theorem clear_waypoints_snd_or (s : SpaceshipNavigation) :
    s.clear_waypoints.2 = s ∨ s.clear_waypoints.1 = true := by
  unfold SpaceshipNavigation.clear_waypoints
  split
  · exact Or.inl rfl
  · exact Or.inr rfl

theorem advance_snd_or (s : SpaceshipNavigation) :
    s.advance_to_next_waypoint.2 = s ∨ s.advance_to_next_waypoint.1 = true := by
  unfold SpaceshipNavigation.advance_to_next_waypoint
  split
  · exact Or.inl rfl
  · split
    · exact Or.inl rfl
    · exact Or.inr rfl

theorem set_navigation_mode_snd_or (s : SpaceshipNavigation) (m : NavigationMode) :
    (s.set_navigation_mode m).2 = s ∨ (s.set_navigation_mode m).1 = true := by
  unfold SpaceshipNavigation.set_navigation_mode
  split
  · exact Or.inl rfl
  · exact Or.inr rfl

theorem lock_navigation_snd_or (s : SpaceshipNavigation) (b : Bool) :
    (s.lock_navigation b).2 = s ∨ (s.lock_navigation b).1 = true := by
  unfold SpaceshipNavigation.lock_navigation
  split
  · exact Or.inl rfl
  · exact Or.inr rfl

/-- C3: every mutator that returns false leaves the state — and hence
every observable field — exactly as it was before the call. -/
theorem C3_rejected_mutators_atomic :
    (∀ (s : SpaceshipNavigation) (x y z : ℝ),
      (s.set_position x y z).1 = false → (s.set_position x y z).2 = s) ∧
    (∀ (s : SpaceshipNavigation) (dx dy dz : ℝ),
      (s.move dx dy dz).1 = false → (s.move dx dy dz).2 = s) ∧
    (∀ (s : SpaceshipNavigation) (vx vy vz : ℝ),
      (s.set_velocity vx vy vz).1 = false → (s.set_velocity vx vy vz).2 = s) ∧
    (∀ (s : SpaceshipNavigation) (ax ay az dt : ℝ),
      (s.accelerate ax ay az dt).1 = false → (s.accelerate ax ay az dt).2 = s) ∧
    (∀ (s : SpaceshipNavigation) (dt : ℝ),
      (s.navigate_time_step dt).1 = false → (s.navigate_time_step dt).2 = s) ∧
    (∀ (s : SpaceshipNavigation) (tx ty tz : ℝ) (ms : Option ℝ),
      (s.navigate_to_target tx ty tz ms).1 = false →
        (s.navigate_to_target tx ty tz ms).2 = s) ∧
    (∀ (s : SpaceshipNavigation) (x y z : ℝ),
      (s.add_waypoint x y z).1 = false → (s.add_waypoint x y z).2 = s) ∧
    (∀ s : SpaceshipNavigation,
      s.clear_waypoints.1 = false → s.clear_waypoints.2 = s) ∧
    (∀ s : SpaceshipNavigation,
      s.advance_to_next_waypoint.1 = false → s.advance_to_next_waypoint.2 = s) ∧
    (∀ (s : SpaceshipNavigation) (m : NavigationMode),
      (s.set_navigation_mode m).1 = false → (s.set_navigation_mode m).2 = s) ∧
    (∀ (s : SpaceshipNavigation) (b : Bool),
      (s.lock_navigation b).1 = false → (s.lock_navigation b).2 = s) :=
  ⟨fun s x y z h => (set_position_snd_or s x y z).resolve_right
      (fun ht => by rw [ht] at h; exact Bool.noConfusion h),
   fun s dx dy dz h => (move_snd_or s dx dy dz).resolve_right
      (fun ht => by rw [ht] at h; exact Bool.noConfusion h),
   fun s vx vy vz h => (set_velocity_snd_or s vx vy vz).resolve_right
      (fun ht => by rw [ht] at h; exact Bool.noConfusion h),
   fun s ax ay az dt h => (accelerate_snd_or s ax ay az dt).resolve_right
      (fun ht => by rw [ht] at h; exact Bool.noConfusion h),
   fun s dt h => (navigate_time_step_snd_or s dt).resolve_right
      (fun ht => by rw [ht] at h; exact Bool.noConfusion h),
   fun s tx ty tz ms h => (navigate_to_target_snd_or s tx ty tz ms).resolve_right
      (fun ht => by rw [ht] at h; exact Bool.noConfusion h),
   fun s x y z h => (add_waypoint_snd_or s x y z).resolve_right
      (fun ht => by rw [ht] at h; exact Bool.noConfusion h),
   fun s h => (clear_waypoints_snd_or s).resolve_right
      (fun ht => by rw [ht] at h; exact Bool.noConfusion h),
   fun s h => (advance_snd_or s).resolve_right
      (fun ht => by rw [ht] at h; exact Bool.noConfusion h),
   fun s m h => (set_navigation_mode_snd_or s m).resolve_right
      (fun ht => by rw [ht] at h; exact Bool.noConfusion h),
   fun s b h => (lock_navigation_snd_or s b).resolve_right
      (fun ht => by rw [ht] at h; exact Bool.noConfusion h)⟩

/-- Witness for C3: `set_velocity 999 999 999` is rejected on a fresh
entity and leaves it untouched. -/
theorem C3_rejected_mutators_atomic_witness :
    ((init 0 0 0).set_velocity 999 999 999).1 = false ∧
    ((init 0 0 0).set_velocity 999 999 999).2 = init 0 0 0 := by
  have h : ((init 0 0 0).set_velocity 999 999 999).1 = false := by
    norm_num [init, SpaceshipNavigation.set_velocity]
  exact ⟨h, C3_rejected_mutators_atomic.2.2.1 _ 999 999 999 h⟩

theorem idx_set_position (s : SpaceshipNavigation) (x y z : ℝ) :
    (s.set_position x y z).2.current_waypoint_index = s.current_waypoint_index := by
  unfold SpaceshipNavigation.set_position
  split
  · rfl
  · rfl

theorem idx_move (s : SpaceshipNavigation) (dx dy dz : ℝ) :
    (s.move dx dy dz).2.current_waypoint_index = s.current_waypoint_index := by
  unfold SpaceshipNavigation.move
  split
  · rfl
  · dsimp only
    split
    · rfl
    · split
      · rfl
      · rfl

theorem idx_set_velocity (s : SpaceshipNavigation) (vx vy vz : ℝ) :
    (s.set_velocity vx vy vz).2.current_waypoint_index = s.current_waypoint_index := by
  unfold SpaceshipNavigation.set_velocity
  split
  · rfl
  · split
    · rfl
    · rfl

theorem idx_accelerate (s : SpaceshipNavigation) (ax ay az dt : ℝ) :
    (s.accelerate ax ay az dt).2.current_waypoint_index = s.current_waypoint_index := by
  unfold SpaceshipNavigation.accelerate
  split
  · rfl
  · dsimp only
    split
    · rfl
    · split
      · rfl
      · rfl

theorem idx_navigate_time_step (s : SpaceshipNavigation) (dt : ℝ) :
    (s.navigate_time_step dt).2.current_waypoint_index = s.current_waypoint_index := by
  unfold SpaceshipNavigation.navigate_time_step
  split
  · rfl
  · exact idx_move _ _ _ _

theorem idx_navigate_to_target (s : SpaceshipNavigation) (tx ty tz : ℝ)
    (ms : Option ℝ) :
    (s.navigate_to_target tx ty tz ms).2.current_waypoint_index =
      s.current_waypoint_index := by
  unfold SpaceshipNavigation.navigate_to_target
  split
  · rfl
  · dsimp only
    split
    · exact idx_set_velocity _ _ _ _
    · exact idx_set_velocity _ _ _ _

theorem idx_le_advance (s : SpaceshipNavigation) :
    s.current_waypoint_index ≤
      s.advance_to_next_waypoint.2.current_waypoint_index := by
  unfold SpaceshipNavigation.advance_to_next_waypoint
  split
  · exact le_refl _
  · split
    · exact le_refl _
    · exact Nat.le_succ _

theorem idx_le_navigate_waypoint_route (s : SpaceshipNavigation) (t : ℝ) :
    s.current_waypoint_index ≤
      (s.navigate_waypoint_route t).2.current_waypoint_index := by
  unfold SpaceshipNavigation.navigate_waypoint_route
  rcases get_next_waypoint s with _ | ⟨wx, wy, wz⟩
  · exact le_refl _
  · dsimp only
    split
    · exact idx_le_advance _
    · exact le_of_eq (idx_navigate_to_target _ _ _ _ _).symm

theorem idx_refuel (s : SpaceshipNavigation) (a : ℝ) :
    (s.refuel a).2.current_waypoint_index = s.current_waypoint_index := by
  unfold SpaceshipNavigation.refuel
  split
  · rfl
  · rfl

theorem idx_set_navigation_mode (s : SpaceshipNavigation) (m : NavigationMode) :
    (s.set_navigation_mode m).2.current_waypoint_index =
      s.current_waypoint_index := by
  unfold SpaceshipNavigation.set_navigation_mode
  split
  · rfl
  · rfl

theorem idx_lock_navigation (s : SpaceshipNavigation) (b : Bool) :
    (s.lock_navigation b).2.current_waypoint_index = s.current_waypoint_index := by
  unfold SpaceshipNavigation.lock_navigation
  split
  · rfl
  · rfl

/-- C6 counterexample: add a waypoint and advance past it (index 1), then
`clear_waypoints` resets the index back to 0 — it decreases along this
reachable run. -/
theorem C6_counterexample :
    (run (init 0 0 0)
      [Op.add_waypoint 1 1 1, Op.advance_to_next_waypoint]).current_waypoint_index
        = 1 ∧
    (run (init 0 0 0)
      [Op.add_waypoint 1 1 1, Op.advance_to_next_waypoint,
        Op.clear_waypoints]).current_waypoint_index = 0 := by
  constructor <;>
    simp [run, step, init, SpaceshipNavigation.add_waypoint,
      SpaceshipNavigation.advance_to_next_waypoint,
      SpaceshipNavigation.clear_waypoints]

/-- C6 amended: `current_waypoint_index` never decreases under any
operation other than `clear_waypoints`; `clear_waypoints` either resets it
to 0 (with the route emptied) or, when rejected by the lock, leaves it
unchanged; and in every reachable state the index is capped at the length
of the waypoint sequence. -/
theorem C6_amended_monotone_capped :
    (∀ (s : SpaceshipNavigation) (op : Op), op ≠ Op.clear_waypoints →
      s.current_waypoint_index ≤ (step s op).current_waypoint_index) ∧
    (∀ s : SpaceshipNavigation,
      (step s Op.clear_waypoints).current_waypoint_index = 0 ∨
      (step s Op.clear_waypoints).current_waypoint_index =
        s.current_waypoint_index) ∧
    (∀ (x y z : ℝ) (ops : List Op),
      (run (init x y z) ops).current_waypoint_index ≤
        (run (init x y z) ops).waypoints.length) := by
  refine ⟨?_, ?_, ?_⟩
  · intro s op hop
    cases op with
    | set_position x y z => exact le_of_eq (idx_set_position s x y z).symm
    | move dx dy dz => exact le_of_eq (idx_move s dx dy dz).symm
    | set_velocity vx vy vz => exact le_of_eq (idx_set_velocity s vx vy vz).symm
    | accelerate ax ay az dt => exact le_of_eq (idx_accelerate s ax ay az dt).symm
    | navigate_time_step dt => exact le_of_eq (idx_navigate_time_step s dt).symm
    | navigate_to_target tx ty tz ms =>
      exact le_of_eq (idx_navigate_to_target s tx ty tz ms).symm
    | add_waypoint x y z =>
      simp only [step]
      unfold SpaceshipNavigation.add_waypoint
      split
      · exact le_refl _
      · exact le_refl _
    | clear_waypoints => exact absurd rfl hop
    | advance_to_next_waypoint => exact idx_le_advance s
    | navigate_waypoint_route t => exact idx_le_navigate_waypoint_route s t
    | refuel a => exact le_of_eq (idx_refuel s a).symm
    | set_navigation_mode m => exact le_of_eq (idx_set_navigation_mode s m).symm
    | lock_navigation b => exact le_of_eq (idx_lock_navigation s b).symm
    | emergency_stop => exact le_refl _
  · intro s
    simp only [step]
    unfold SpaceshipNavigation.clear_waypoints
    split
    · exact Or.inr rfl
    · exact Or.inl rfl
  · intro x y z ops
    exact (inv_run _ ops (inv_init x y z)).2.2.2.2.2.2.2.1

/-- Witness for C6 at a concrete state and operation. -/
theorem C6_amended_monotone_capped_witness :
    (Op.emergency_stop ≠ Op.clear_waypoints) ∧
    (init 0 0 0).current_waypoint_index ≤
      (step (init 0 0 0) Op.emergency_stop).current_waypoint_index :=
  ⟨fun h => Op.noConfusion h,
   C6_amended_monotone_capped.1 (init 0 0 0) Op.emergency_stop
     (fun h => Op.noConfusion h)⟩

theorem set_velocity_fst_true (s : SpaceshipNavigation) (vx vy vz : ℝ)
    (hl : s.navigation_locked = false)
    (h1 : |vx| ≤ s.max_speed) (h2 : |vy| ≤ s.max_speed)
    (h3 : |vz| ≤ s.max_speed) : (s.set_velocity vx vy vz).1 = true := by
  have hg : ¬(|vx| > s.max_speed ∨ |vy| > s.max_speed ∨ |vz| > s.max_speed) := by
    push_neg
    exact ⟨h1, h2, h3⟩
  unfold SpaceshipNavigation.set_velocity
  rw [hl, if_neg (by simp), if_neg hg]

/-- C2 counterexample: on a fresh entity at the origin, targeting
(10,0,0) with requested speed -200 yields velocity component -200 after
the one-sided clamp `min(-200, 100) = -200`, so `set_velocity` rejects it
and `navigate_to_target` returns false even though navigation is
unlocked. -/
theorem C2_counterexample :
    (init 0 0 0).navigation_locked = false ∧
    ((init 0 0 0).navigate_to_target 10 0 0 (some (-200))).1 = false := by
  refine ⟨rfl, ?_⟩
  have hd : calculate_distance_to (init 0 0 0) 10 0 0 = 10 := by
    unfold SpaceshipNavigation.calculate_distance_to
    norm_num [init]
    rw [show (100:ℝ) = 10 ^ 2 by norm_num,
      Real.sqrt_sq (by norm_num : (0:ℝ) ≤ 10)]
  unfold SpaceshipNavigation.navigate_to_target
  rw [show (init 0 0 0).navigation_locked = false from rfl, if_neg (by simp)]
  dsimp only
  rw [if_neg (by rw [hd]; norm_num), hd]
  unfold SpaceshipNavigation.set_velocity
  rw [show (init 0 0 0).navigation_locked = false from rfl, if_neg (by simp)]
  rw [if_pos]
  norm_num [init]

/-- C2 amended: with navigation unlocked and a nonnegative `max_speed`,
`navigate_to_target` returns true for every target whenever the requested
speed, if given, is at least `-max_speed` (in particular whenever it is
omitted or nonnegative): the clamp `min(speed, max_speed)` then keeps
every velocity component within the limit, so the speed-limit rejection
branch of `set_velocity` is unreachable.  A requested speed below
`-max_speed` escapes the one-sided clamp and is rejected. -/
theorem C2_amended_navigate_to_target_true (s : SpaceshipNavigation)
    (tx ty tz : ℝ) (ms : Option ℝ)
    (hl : s.navigation_locked = false) (hM : 0 ≤ s.max_speed)
    (hreq : ∀ r ∈ ms, -s.max_speed ≤ r) :
    (s.navigate_to_target tx ty tz ms).1 = true := by
  unfold SpaceshipNavigation.navigate_to_target
  rw [hl, if_neg (by simp)]
  dsimp only
  split
  · exact set_velocity_fst_true _ _ _ _ hl (by simpa using hM)
      (by simpa using hM) (by simpa using hM)
  · rename_i hd
    have hd0 : 0 ≤ calculate_distance_to s tx ty tz := Real.sqrt_nonneg _
    have hdpos : 0 < calculate_distance_to s tx ty tz :=
      lt_of_le_of_ne hd0 (Ne.symm hd)
    have hspeed : |min (ms.getD s.max_speed) s.max_speed| ≤ s.max_speed := by
      rcases ms with _ | r
      · simp [abs_of_nonneg hM]
      · have hmin : min r s.max_speed ≤ s.max_speed := min_le_right _ _
        have hlow : -s.max_speed ≤ min r s.max_speed :=
          le_min (hreq r rfl) (by linarith)
        simpa using abs_le.mpr ⟨hlow, hmin⟩
    have key : ∀ a : ℝ,
        a * a ≤ (tx - s.x) * (tx - s.x) + (ty - s.y) * (ty - s.y) +
          (tz - s.z) * (tz - s.z) →
        |a| ≤ calculate_distance_to s tx ty tz := by
      intro a ha
      rw [show calculate_distance_to s tx ty tz =
        Real.sqrt ((tx - s.x) * (tx - s.x) + (ty - s.y) * (ty - s.y) +
          (tz - s.z) * (tz - s.z)) from rfl]
      calc |a| = Real.sqrt (a * a) := (Real.sqrt_mul_self_eq_abs a).symm
        _ ≤ _ := Real.sqrt_le_sqrt ha
    have comp : ∀ a : ℝ, |a| ≤ calculate_distance_to s tx ty tz →
        |a / calculate_distance_to s tx ty tz *
          min (ms.getD s.max_speed) s.max_speed| ≤ s.max_speed := by
      intro a ha
      rw [abs_mul, abs_div, abs_of_nonneg hd0]
      calc |a| / calculate_distance_to s tx ty tz *
            |min (ms.getD s.max_speed) s.max_speed|
          ≤ 1 * s.max_speed :=
            mul_le_mul ((div_le_one hdpos).mpr ha) hspeed (abs_nonneg _)
              zero_le_one
        _ = s.max_speed := one_mul _
    have hx : (tx - s.x) * (tx - s.x) ≤ (tx - s.x) * (tx - s.x) +
        (ty - s.y) * (ty - s.y) + (tz - s.z) * (tz - s.z) := by
      nlinarith [mul_self_nonneg (ty - s.y), mul_self_nonneg (tz - s.z)]
    have hy : (ty - s.y) * (ty - s.y) ≤ (tx - s.x) * (tx - s.x) +
        (ty - s.y) * (ty - s.y) + (tz - s.z) * (tz - s.z) := by
      nlinarith [mul_self_nonneg (tx - s.x), mul_self_nonneg (tz - s.z)]
    have hz2 : (tz - s.z) * (tz - s.z) ≤ (tx - s.x) * (tx - s.x) +
        (ty - s.y) * (ty - s.y) + (tz - s.z) * (tz - s.z) := by
      nlinarith [mul_self_nonneg (tx - s.x), mul_self_nonneg (ty - s.y)]
    exact set_velocity_fst_true _ _ _ _ hl
      (comp _ (key _ hx)) (comp _ (key _ hy)) (comp _ (key _ hz2))

/-- Witness for the amended C2 at a concrete unlocked entity and
in-range requested speed. -/
theorem C2_amended_navigate_to_target_true_witness :
    (init 0 0 0).navigation_locked = false ∧
    (0 ≤ (init 0 0 0).max_speed) ∧
    (∀ r ∈ some (50 : ℝ), -(init 0 0 0).max_speed ≤ r) ∧
    ((init 0 0 0).navigate_to_target 3 4 0 (some 50)).1 = true :=
  ⟨rfl, by norm_num [init], by norm_num [init],
    C2_amended_navigate_to_target_true (init 0 0 0) 3 4 0 (some 50) rfl
      (by norm_num [init]) (by norm_num [init])⟩

/-- C4: for every sequence of operations applied to a freshly constructed
entity, `0 ≤ fuel_level ≤ max_fuel` holds after every call. -/
theorem C4_fuel_bound (x y z : ℝ) (ops : List Op) :
    0 ≤ (run (init x y z) ops).fuel_level ∧
    (run (init x y z) ops).fuel_level ≤ (run (init x y z) ops).max_fuel :=
  ⟨(inv_run _ ops (inv_init x y z)).1, (inv_run _ ops (inv_init x y z)).2.1⟩

/-- C5: for every sequence of operations applied to a freshly constructed
entity, every velocity component satisfies `|v| ≤ max_speed` after every
call. -/
theorem C5_speed_bound (x y z : ℝ) (ops : List Op) :
    |(run (init x y z) ops).velocity_x| ≤ (run (init x y z) ops).max_speed ∧
    |(run (init x y z) ops).velocity_y| ≤ (run (init x y z) ops).max_speed ∧
    |(run (init x y z) ops).velocity_z| ≤ (run (init x y z) ops).max_speed :=
  ⟨(inv_run _ ops (inv_init x y z)).2.2.2.2.1,
   (inv_run _ ops (inv_init x y z)).2.2.2.2.2.1,
   (inv_run _ ops (inv_init x y z)).2.2.2.2.2.2.1⟩

/-- C9: in every reachable state `is_engine_active` is false, so the
engine-active field of `get_navigation_status` is always false. -/
theorem C9_engine_never_active (x y z : ℝ) (ops : List Op) :
    (run (init x y z) ops).is_engine_active = false ∧
    (SpaceshipNavigation.get_navigation_status
      (run (init x y z) ops)).is_engine_active = false :=
  ⟨(inv_run _ ops (inv_init x y z)).2.2.2.2.2.2.2.2,
   (inv_run _ ops (inv_init x y z)).2.2.2.2.2.2.2.2⟩

/-- C7: `navigate_time_step dt` fails exactly when navigation is locked or
`dt ≤ 0`, and otherwise returns precisely the result of
`move (velocity_x*dt) (velocity_y*dt) (velocity_z*dt)`: it equals the
spec-side model built from the move operation. -/
theorem C7_navigate_time_step_eq_model (s : SpaceshipNavigation) (dt : ℝ) :
    s.navigate_time_step dt = navigate_time_step_model s dt := rfl

/-- C8: with navigation unlocked (any fuel level), `move 0 0 0` returns
true and changes nothing: no fuel is charged and no history entry is
appended. -/
theorem C8_zero_move_noop (s : SpaceshipNavigation)
    (h : s.navigation_locked = false) : s.move 0 0 0 = (true, s) := by
  unfold SpaceshipNavigation.move
  rw [h]
  norm_num

/-- Witness for C8 at a concrete fresh entity. -/
theorem C8_zero_move_noop_witness :
    (init 0 0 0).navigation_locked = false ∧
    (init 0 0 0).move 0 0 0 = (true, init 0 0 0) :=
  ⟨rfl, C8_zero_move_noop (init 0 0 0) rfl⟩

/-- C1 counterexample: from a fresh entity, set velocity (50,0,0), lock
navigation, then enter EMERGENCY through `set_navigation_mode`.  The call
succeeds, yet the resulting state keeps velocity 50 on the x axis and
stays locked — the claim's zeroed-velocity/released-lock conclusion fails
at this concrete input. -/
theorem C1_counterexample :
    ((((init 0 0 0).set_velocity 50 0 0).2.lock_navigation true).2.set_navigation_mode
        NavigationMode.EMERGENCY).1 = true ∧
    ((((init 0 0 0).set_velocity 50 0 0).2.lock_navigation true).2.set_navigation_mode
        NavigationMode.EMERGENCY).2.velocity_x = 50 ∧
    ((((init 0 0 0).set_velocity 50 0 0).2.lock_navigation true).2.set_navigation_mode
        NavigationMode.EMERGENCY).2.navigation_locked = true := by
  norm_num [init, SpaceshipNavigation.set_velocity, SpaceshipNavigation.lock_navigation,
    SpaceshipNavigation.set_navigation_mode]

/-- C1 amended: only `emergency_stop` forcibly zeroes the velocity and
releases the lock on entering EMERGENCY mode; `set_navigation_mode
EMERGENCY` always succeeds (even while locked) but changes only the mode,
leaving velocity and the lock untouched. -/
theorem C1_amended_emergency_entry (s : SpaceshipNavigation) :
    (s.emergency_stop.1 = true ∧
     s.emergency_stop.2.velocity_x = 0 ∧ s.emergency_stop.2.velocity_y = 0 ∧
     s.emergency_stop.2.velocity_z = 0 ∧
     s.emergency_stop.2.navigation_mode = NavigationMode.EMERGENCY ∧
     s.emergency_stop.2.navigation_locked = false) ∧
    ((s.set_navigation_mode NavigationMode.EMERGENCY).1 = true ∧
     (s.set_navigation_mode NavigationMode.EMERGENCY).2.navigation_mode =
       NavigationMode.EMERGENCY ∧
     (s.set_navigation_mode NavigationMode.EMERGENCY).2.velocity_x = s.velocity_x ∧
     (s.set_navigation_mode NavigationMode.EMERGENCY).2.velocity_y = s.velocity_y ∧
     (s.set_navigation_mode NavigationMode.EMERGENCY).2.velocity_z = s.velocity_z ∧
     (s.set_navigation_mode NavigationMode.EMERGENCY).2.navigation_locked =
       s.navigation_locked) := by
  refine ⟨⟨rfl, rfl, rfl, rfl, rfl, rfl⟩, ?_⟩
  simp [SpaceshipNavigation.set_navigation_mode]

/-- C10: `refuel` reads neither the lock nor the mode, so on any two
states that differ only in those fields it returns the same amount and
produces the same fuel level. -/
theorem C10_refuel_ignores_lock_and_mode (s₁ s₂ : SpaceshipNavigation) (a : ℝ)
    (h : EqExceptLockAndMode s₁ s₂) :
    (s₁.refuel a).1 = (s₂.refuel a).1 ∧
    (s₁.refuel a).2.fuel_level = (s₂.refuel a).2.fuel_level := by
  obtain ⟨-, -, -, -, -, -, hf, hm, -, -, -, -, -, -, -⟩ := h
  unfold SpaceshipNavigation.refuel
  rw [hf, hm]
  split
  · exact ⟨rfl, hf⟩
  · exact ⟨rfl, rfl⟩

/-- Witness for C10: a locked copy of the fresh entity refuels exactly as
the unlocked one. -/
theorem C10_refuel_ignores_lock_and_mode_witness :
    EqExceptLockAndMode ((init 0 0 0).lock_navigation true).2 (init 0 0 0) ∧
    ((((init 0 0 0).lock_navigation true).2.refuel 5).1 =
        ((init 0 0 0).refuel 5).1 ∧
      (((init 0 0 0).lock_navigation true).2.refuel 5).2.fuel_level =
        ((init 0 0 0).refuel 5).2.fuel_level) :=
  ⟨⟨rfl, rfl, rfl, rfl, rfl, rfl, rfl, rfl, rfl, rfl, rfl, rfl, rfl, rfl, rfl⟩,
    C10_refuel_ignores_lock_and_mode _ _ 5
      ⟨rfl, rfl, rfl, rfl, rfl, rfl, rfl, rfl, rfl, rfl, rfl, rfl, rfl, rfl, rfl⟩⟩

end SpaceShip
